import Mathlib

/-!
Verification of the site-configuration module (`src/config.ts`) and the
blog-post front-matter data of the repository, as a shallow embedding.

The repository is a static blog: `src/config.ts` exports three constants
(`NAV_ITEMS`, `SITE`, `PAGE_SIZE`) and `src/pages/blog` holds markdown
content files whose front-matter carries a tag list.  The rendering
pipeline itself is an external framework; where a claim is about that
pipeline, the corresponding definition is modelled from the spec and is
marked as such in its doc comment.
-/

namespace Blog

/-- Navigation entry shape.  The type it is annotated with in the source
(`NavItems` from `src/types.ts`) is not among the provided files; the
field shape is taken from the object literals in `src/config.ts`, which
agree with the spec record `NavigationItem = (path, title)`. -/
structure NavItem where
  path : String
  title : String
  deriving DecidableEq, Repr

/-- `NAV_ITEMS` from `src/config.ts`, lines 3-19: an ordered mapping from
symbolic key to navigation item, embedded as an association list so that
the display order of the entries is preserved. -/
def NAV_ITEMS : List (String × NavItem) :=
  [ ("home",  { path := "/",      title := "home" }),
    ("blog",  { path := "/blog",  title := "blog" }),
    ("tags",  { path := "/tags",  title := "tags" }),
    ("about", { path := "/about", title := "about" }) ]

/-- Shape of the `SITE` record in `src/config.ts` (the spec record
`SiteMetadata`). -/
structure SiteMetadata where
  name : String
  title : String
  description : String
  url : String
  githubUrl : String
  listDrafts : Bool
  deriving DecidableEq, Repr

/-- `SITE` from `src/config.ts`, lines 22-31. -/
def SITE : SiteMetadata :=
  { name := "Art Fewell\x27s Blog"
    title := "Art Fewell\x27s Blog"
    description := "This site provides words, sentences, and paragraphs - all at no extra charge"
    url := "https://artfewell.com"
    githubUrl := "https://github.com/afewell"
    listDrafts := true }

/-- `PAGE_SIZE` from `src/config.ts`, line 33. -/
def PAGE_SIZE : Nat := 8

/-- A character allowed in a URI scheme after the leading letter
(RFC 3986: ALPHA / DIGIT / "+" / "-" / "."). -/
def isSchemeChar (c : Char) : Bool :=
  c.isAlpha || c.isDigit || c == '+' || c == '-' || c == '.'

/-- A character allowed in the body of a URI (RFC 3986 unreserved,
gen-delims, sub-delims and the percent sign of percent-encoding). -/
def isUriChar (c : Char) : Bool :=
  c.isAlpha || c.isDigit || "-._~:/?#[]@!$&()*+,;=%".toList.contains c

/-- Syntactic absolute-URL check (RFC 3986 absolute-URI shape): a scheme
that starts with a letter and continues with scheme characters, then a
colon, then a non-empty remainder of URI characters. -/
def isValidAbsoluteUrl (s : String) : Bool :=
  let cs := s.toList
  let scheme := cs.takeWhile (fun c => c != ':')
  let rest := cs.dropWhile (fun c => c != ':')
  match scheme, rest with
  | c :: tl, ':' :: r =>
      c.isAlpha && tl.all isSchemeChar && !r.isEmpty && r.all isUriChar
  | _, _ => false

/-- JSON values, the target of serialization of the configuration. -/
inductive Json where
  | str : String → Json
  | num : Nat → Json
  | bool : Bool → Json
  | obj : List (String × Json) → Json
  deriving Repr

/-- Serialize a navigation item to JSON. -/
def NavItem.toJson (n : NavItem) : Json :=
  .obj [("path", .str n.path), ("title", .str n.title)]

/-- Deserialize a navigation item from JSON. -/
def NavItem.fromJson : Json → Option NavItem
  | .obj [("path", .str p), ("title", .str t)] => some { path := p, title := t }
  | _ => none

/-- Serialize the navigation mapping to a JSON object, preserving entry
order. -/
def navMapToJson (m : List (String × NavItem)) : Json :=
  .obj (m.map fun kv => (kv.1, kv.2.toJson))

/-- Deserialize a navigation mapping from a JSON object. -/
def navMapFromJson : Json → Option (List (String × NavItem))
  | .obj kvs => kvs.mapM fun kv => (NavItem.fromJson kv.2).map fun n => (kv.1, n)
  | _ => none

/-- Serialize the site metadata record to JSON. -/
def SiteMetadata.toJson (s : SiteMetadata) : Json :=
  .obj [ ("name", .str s.name), ("title", .str s.title),
         ("description", .str s.description), ("url", .str s.url),
         ("githubUrl", .str s.githubUrl), ("listDrafts", .bool s.listDrafts) ]

/-- Deserialize a site metadata record from JSON. -/
def SiteMetadata.fromJson : Json → Option SiteMetadata
  | .obj [ ("name", .str n), ("title", .str t),
           ("description", .str d), ("url", .str u),
           ("githubUrl", .str g), ("listDrafts", .bool l) ] =>
      some { name := n, title := t, description := d, url := u,
             githubUrl := g, listDrafts := l }
  | _ => none

/-- The whole configuration surface exported by `src/config.ts`. -/
structure Config where
  navItems : List (String × NavItem)
  site : SiteMetadata
  pageSize : Nat
  deriving DecidableEq, Repr

/-- The configuration as defined in `src/config.ts`. -/
def config : Config :=
  { navItems := NAV_ITEMS, site := SITE, pageSize := PAGE_SIZE }

/-- Serialize the configuration object to JSON. -/
def Config.toJson (c : Config) : Json :=
  .obj [ ("NAV_ITEMS", navMapToJson c.navItems),
         ("SITE", c.site.toJson),
         ("PAGE_SIZE", .num c.pageSize) ]

/-- Deserialize a configuration object from JSON. -/
def Config.fromJson : Json → Option Config
  | .obj [ ("NAV_ITEMS", n), ("SITE", s), ("PAGE_SIZE", .num p) ] =>
      match navMapFromJson n, SiteMetadata.fromJson s with
      | some nav, some site => some { navItems := nav, site := site, pageSize := p }
      | _, _ => none
  | _ => none

/-- Modelled from the spec: the rendering pipeline is an external
framework not present in the source; per the spec, "at least one tag must
be present or the post is not rendered", and "a content file without a tag
list is silently excluded from rendering".  `none` models an absent
front-matter tag list. -/
def excludedFromRendering : Option (List String) → Bool
  | none => true
  | some ts => ts.isEmpty

/-- A rendered navigation link: a hyperlink target and a display label. -/
structure MenuLink where
  href : String
  label : String
  deriving DecidableEq, Repr

/-- Modelled from the spec: the menu-rendering consumer is the external
pipeline, which "reads `NAV_ITEMS` to render a navigation menu", emitting
one link per entry in mapping order, labelled by the entry title. -/
def renderMenu (items : List (String × NavItem)) : List MenuLink :=
  items.map fun kv => { href := kv.2.path, label := kv.2.title }

/-- The two-entry navigation mapping of the spec example scenario. -/
def exampleNavItems : List (String × NavItem) :=
  [ ("home", { path := "/", title := "home" }),
    ("blog", { path := "/blog", title := "blog" }) ]

/-- Front-matter `tags` lists of all fourteen blog-post documents provided
in the repository: each provided content file holds one or more blog-post
documents separated by document separators, and every document carries its
own complete front-matter block.  Entries are keyed by a title slug, in
file order and document order within each file. -/
def blogPostTags : List (String × List String) :=
  [ ("MinikubeStartService",
      ["Intro", "Minikube", "Systemd", "Ubuntu", "Bash",
       "Platform Engineering", "Kubernetes", "OvaTheTap",
       "Tanzu Application Platform"]),
    ("chatgptHugeHelpSslCertificates",
      ["Intro", "ChatGPT", "Bash", "Platform Engineering", "Kubernetes",
       "Certificates", "OvaTheTap"]),
    ("SuperSimpleGitopsNotetaking",
      ["GitOps", "Platform Engineering", "Kubernetes", "Github Projects",
       "Agile"]),
    ("automateVersioningSemanticRelease",
      ["GitOps", "Platform Engineering", "Kubernetes", "Github Projects",
       "Agile", "Semantic release"]),
    ("WhenChatGPTisWrong",
      ["ChatGPT", "GitOps", "Platform Engineering", "Kubernetes", "Devops",
       "Artificial Intelligence", "Machine Learning"]),
    ("gitlabForTapLab",
      ["Tanzu", "Tanzu Application Platform", "Gitlab", "Cert-Manager",
       "Platform Engineering", "Kubernetes", "Tanzu Packages", "Certificates",
       "Private Certificate Authority", "OvaTheTap", "Backstage",
       "Spotify Backstage"]),
    ("welcomeTo2024Autogen",
      ["ChatGPT", "Tanzu", "Artificial Intelligence", "Kubernetes", "GPT4",
       "AutoGen", "Machine Learning", "LLM", "Tanzu Application Platform"]),
    ("scrapeToDocumentExtractionPart1",
      ["ChatGPT", "Tanzu", "Platform Engineering", "Kubernetes", "Devops",
       "AIops", "Artificial Intelligence", "Machine Learning", "Tanzu CLI",
       "Tanzu Application Platform"]),
    ("chatgptLogsImproveBashScript", ["Intro", "ChatGPT", "Bash"]),
    ("gitopsClusterLifecycleTanzuAria",
      ["VMware", "Tanzu", "Tanzu Mission Control", "Tanzu Application Platform",
       "Tanzu for Kubernetes Operations", "Kubernetes", "Aria Automation",
       "Aria Assembler", "Aria Pipelines", "Aria Service Broker", "Terraform",
       "Azure", "Azure Kubernetes Service", "ABX Actions", "Aria Blueprints",
       "Infrastructure-as-code", "Gitops"]),
    ("customClusterIssuerPrivateCA",
      ["Tanzu", "Tanzu Application Platform", "Cert-Manager",
       "Platform Engineering", "Kubernetes", "Tanzu Packages", "Certificates",
       "Private Certificate Authority", "OvaTheTap"]),
    ("trainAiWithJustSourceCode",
      ["ChatGPT", "Developer Experience", "Devx", "Artificial Intelligence",
       "Machine Learning", "Plugin Oriented Programming", "Fine-Tuning",
       "Idem", "Idem project", "Python"]),
    ("scrapeToDocumentExtractionPart2",
      ["ChatGPT", "Tanzu", "Platform Engineering", "Kubernetes", "Devops",
       "AIops", "Artificial Intelligence", "Machine Learning", "Tanzu CLI",
       "Tanzu Application Platform"]),
    ("welcomeToMyNewBlogSite", ["Intro"]) ]

/-- C1: `NAV_ITEMS` has exactly four entries, keyed `home`, `blog`,
`tags`, `about` in that order, and every entry has a path starting with
`/` and a non-empty, all-lowercase title. -/
theorem nav_items_wellformed :
    NAV_ITEMS.map Prod.fst = ["home", "blog", "tags", "about"] ∧
    NAV_ITEMS.length = 4 ∧
    (NAV_ITEMS.all fun kv =>
      kv.2.path.toList.head? == some '/' && !kv.2.title.toList.isEmpty &&
      kv.2.title.toList.all Char.isLower) = true := by
  refine ⟨rfl, rfl, ?_⟩
  decide

/-- C2: `PAGE_SIZE` is a positive integer and equals 8. -/
theorem page_size_positive_eight : PAGE_SIZE = 8 ∧ 0 < PAGE_SIZE :=
  ⟨rfl, by decide⟩

/-- C3: under the renderer rule modelled from the spec, a post is
excluded from rendering precisely when its front-matter tag list is
absent or empty; a post with at least one tag is rendered. -/
theorem excluded_iff_no_tags :
    ∀ t : Option (List String),
      excludedFromRendering t = true ↔ t = none ∨ t = some [] := by
  intro t
  match t with
  | none => simp [excludedFromRendering]
  | some [] => simp [excludedFromRendering]
  | some (x :: xs) => simp [excludedFromRendering]

/-- C4: `SITE.url` and `SITE.githubUrl` are syntactically valid absolute
URLs. -/
theorem site_urls_valid :
    isValidAbsoluteUrl SITE.url = true ∧
    isValidAbsoluteUrl SITE.githubUrl = true := by
  constructor <;> decide

/-- C5: serializing the configuration object defined in `src/config.ts`
to JSON and deserializing it back yields the identical structure. -/
theorem config_roundtrip : Config.fromJson (Config.toJson config) = some config := by
  decide

/-- C6: on the two-entry navigation mapping of the spec example, the
menu-rendering consumer produces exactly two links, in the order home
then blog, with labels "home" and "blog". -/
theorem example_menu_render :
    renderMenu exampleNavItems =
      [ { href := "/", label := "home" }, { href := "/blog", label := "blog" } ] ∧
    (renderMenu exampleNavItems).length = 2 ∧
    (renderMenu exampleNavItems).map MenuLink.label = ["home", "blog"] :=
  ⟨rfl, rfl, rfl⟩

/-- C8: `SITE.listDrafts` is a boolean value: it is one of the two
boolean constants. -/
theorem listDrafts_is_boolean :
    SITE.listDrafts = true ∨ SITE.listDrafts = false :=
  Or.inl rfl

/-- C9: `SITE.listDrafts` equals `true` in this configuration, so draft
posts are included in generated listings. -/
theorem listDrafts_eq_true : SITE.listDrafts = true := rfl

/-- C10: every blog-post document provided in the repository (all fourteen,
across the named and unnamed content files) has a front-matter tag list
with at least one element, so the renderer's exclusion branch is
unreachable on the provided content. -/
theorem all_posts_have_tags :
    blogPostTags.length = 14 ∧
    (blogPostTags.all fun p =>
      !(p.2.isEmpty) && !(excludedFromRendering (some p.2))) = true := by
  refine ⟨rfl, ?_⟩
  decide

end Blog
